import Mathlib

/-!
Shallow embedding of `src/renderer/render.py` (class `Renderer`) of the
minimap_renderer repository: the manifest resolver (`_load_map_manifest`),
the coordinate transform (`get_scaled`), the layer registry
(`_check_versioned_layers`) and the per-frame composition loop (`start`).

Modelling conventions:
* JSON manifest values are `JVal` (Python `int` ↦ `jint`, Python `float`
  ↦ `jfloat` carrying an exact rational, strings ↦ `jstr`); a manifest is
  an association list from map name to its entry (a list of values),
  mirroring `json.load(...)` of `manifest.json`.
* `importlib.resources.open_text(pkg, "manifest.json")` either succeeds
  with a parsed manifest or fails: `OpenErr.fileNotFound` when the package
  exists but the file does not (Python `FileNotFoundError`) and
  `OpenErr.moduleNotFound` when the package itself is missing (Python
  `ModuleNotFoundError`, the mode the code itself catches in `_load_map`,
  render.py line 102).
* Raising `MapManifestLoadError` is `Except.error ()`.
* Python's `round` is round-half-to-even (`pyRound`), and float
  arithmetic is embedded as exact rational arithmetic.
-/

instance {ε α : Type} [DecidableEq ε] [DecidableEq α] : DecidableEq (Except ε α) :=
  fun a b =>
    match a, b with
    | Except.ok x, Except.ok y =>
        if h : x = y then isTrue (by rw [h])
        else isFalse (fun hc => h (by cases hc; rfl))
    | Except.error x, Except.error y =>
        if h : x = y then isTrue (by rw [h])
        else isFalse (fun hc => h (by cases hc; rfl))
    | Except.ok _, Except.error _ => isFalse (fun hc => Except.noConfusion hc)
    | Except.error _, Except.ok _ => isFalse (fun hc => Except.noConfusion hc)

inductive JVal where
  | jint : Int → JVal
  | jfloat : ℚ → JVal
  | jstr : String → JVal
  deriving DecidableEq, Repr

/-- A parsed `manifest.json`: map name ↦ entry. -/
abbrev Manifest := List (String × List JVal)

/-- `manifest[game_map]`: `none` models Python's `KeyError`. -/
def Manifest.lookupMap (m : Manifest) (k : String) : Option (List JVal) :=
  (m.find? (fun p => p.1 == k)).map Prod.snd

/-- Failure modes of `open_text(pkg, "manifest.json")`. -/
inductive OpenErr where
  | fileNotFound
  | moduleNotFound
  deriving DecidableEq, Repr

/-- Result of attempting to open and parse a manifest. -/
abbrev OpenResult := Except OpenErr Manifest

/-- The session fields `_load_map_manifest` assigns (render.py line 124 /
lines 134-138): `self.minimap_size`, `self.space_size`, `self.scaling`. -/
structure MapInfo where
  minimap_size : Int
  space_size : Int
  scaling : ℚ
  deriving DecidableEq, Repr

/-- The tuple unpack of a manifest entry followed by the assertions of
render.py lines 144-148: the unpack requires exactly three values
(otherwise `ValueError`), then `isinstance(minimap_size, int)`,
`isinstance(space_size, int)`, `isinstance(scaling, float)`,
`0 < space_size <= 1600`, `760 == minimap_size`.  `none` models any of
these raising. -/
def checkEntry (e : List JVal) : Option MapInfo :=
  match e with
  | [JVal.jint ms, JVal.jint ss, JVal.jfloat sc] =>
      if 0 < ss ∧ ss ≤ 1600 ∧ ms = 760 then some ⟨ms, ss, sc⟩ else none
  | _ => none

/-- Which resource package `_load_map_manifest` returns:
`map_versioned` or `map_default`. -/
inductive Src where
  | versioned
  | dflt
  deriving DecidableEq, Repr

/-- The `except (FileNotFoundError, KeyError)` handler of render.py lines
129-142: open the default manifest, look the map up, unpack.  Any failure
here escapes to the outer `except Exception` (no further fallback), so it
is `Except.error ()`. -/
def fallbackDefault (dres : OpenResult) (game_map : String) :
    Except Unit (MapInfo × Src) :=
  match dres with
  | Except.ok dm =>
      match dm.lookupMap game_map with
      | some e =>
          match checkEntry e with
          | some info => Except.ok (info, Src.dflt)
          | none => Except.error ()
      | none => Except.error ()
  | Except.error _ => Except.error ()

/-- `Renderer._load_map_manifest` (render.py lines 105-152), as a function
of the outcome of opening the versioned manifest (`vres`), the outcome of
opening the default manifest (`dres`), and `game_map`.

The inner `try` opens the versioned manifest and looks `game_map` up in
it; only `FileNotFoundError` (file missing) and `KeyError` (map absent)
are caught and routed to the default-manifest handler.  A
`ModuleNotFoundError` (versioned package missing) is not caught by the
inner `except` and reaches the outer `except Exception`, raising
`MapManifestLoadError` directly.  Once an entry is found, the unpack and
the assertions run; any failure there also raises directly. -/
def load_map_manifest (vres : OpenResult) (dres : OpenResult)
    (game_map : String) : Except Unit (MapInfo × Src) :=
  match vres with
  | Except.ok vm =>
      match vm.lookupMap game_map with
      | some e =>
          match checkEntry e with
          | some info => Except.ok (info, Src.versioned)
          | none => Except.error ()
      | none => fallbackDefault dres game_map
  | Except.error OpenErr.fileNotFound => fallbackDefault dres game_map
  | Except.error OpenErr.moduleNotFound => Except.error ()

/-- Whether control reaches the default-manifest handler: exactly when the
inner `try` raises `FileNotFoundError` or `KeyError`. -/
def consultsDefault (vres : OpenResult) (game_map : String) : Bool :=
  match vres with
  | Except.ok vm => (vm.lookupMap game_map).isNone
  | Except.error OpenErr.fileNotFound => true
  | Except.error OpenErr.moduleNotFound => false

/-- Python's builtin `round` on an exact value: round-half-to-even
(banker's rounding), as used in `Renderer.get_scaled`
(render.py lines 171-172). -/
def pyRound (q : ℚ) : Int :=
  if Int.fract q < 1/2 then ⌊q⌋
  else if 1/2 < Int.fract q then ⌊q⌋ + 1
  else if ⌊q⌋ % 2 = 0 then ⌊q⌋ else ⌊q⌋ + 1

/-- `Renderer.get_scaled` (render.py lines 154-173): negate `y` when
`flip_y`, then `round(coord * self.scaling + self.minimap_size / 2)` on
each axis.  The session state is a `MapInfo` (the fields
`_load_map_manifest` set). -/
def get_scaled (st : MapInfo) (xy : ℚ × ℚ) (flip_y : Bool) : Int × Int :=
  let x := xy.1
  let y := if flip_y then -xy.2 else xy.2
  (pyRound (x * st.scaling + (st.minimap_size : ℚ) / 2),
   pyRound (y * st.scaling + (st.minimap_size : ℚ) / 2))

/-- The seven layer roles `Renderer` resolves and draws
(render.py lines 41-49, 66-72, 188-196). -/
inductive LayerRole where
  | ship
  | shot
  | torpedo
  | smoke
  | plane
  | ward
  | capture
  deriving DecidableEq, Repr

/-- The `layers` list of `_check_versioned_layers` (render.py lines
188-196): the fixed order in which roles are resolved
(`LayerShip`, `LayerShot`, `LayerTorpedo`, `LayerSmoke`, `LayerPlane`,
`LayerWard`, `LayerCapture`). -/
def layers : List LayerRole :=
  [LayerRole.ship, LayerRole.shot, LayerRole.torpedo, LayerRole.smoke,
   LayerRole.plane, LayerRole.ward, LayerRole.capture]

/-- A resolved layer implementation: its role, and whether it came from the
versioned module (`True`) or is the `...Base` default (`False`). -/
structure LayerImpl where
  role : LayerRole
  versioned : Bool
  deriving DecidableEq, Repr

/-- The built-in default `{layer}Base` from `renderer.layers`
(render.py lines 207-208); `renderer/layers/__init__.py` exports a Base
class for every role, so the default is total. -/
def defaultImpl (r : LayerRole) : LayerImpl := ⟨r, false⟩

/-- One iteration of the resolution loop (render.py lines 201-209):
try `import_module` + `getattr` on the versioned package (`lookupV r`
is `some` when that succeeds); on `ModuleNotFoundError` or
`AttributeError` (`lookupV r = none`) the handler constructs the default
implementation.  The `try/except` is embedded as the `Option` match: the
miss branch returns the default instead of propagating an error. -/
def resolveLayer (lookupV : LayerRole → Option Unit) (r : LayerRole) :
    LayerImpl :=
  match lookupV r with
  | some _ => ⟨r, true⟩
  | none => defaultImpl r

/-- `Renderer._check_versioned_layers` (render.py lines 178-210):
resolve each role of `layers`, in that order, collecting the
initialized implementations. -/
def check_versioned_layers (lookupV : LayerRole → Option Unit) :
    List LayerImpl :=
  layers.map (resolveLayer lookupV)

/-- Which object a layer's `draw` receives in the loop body (render.py
lines 65-72): the foreground copy itself, or the `ImageDraw.Draw` context
created on that same copy. -/
inductive Canvas where
  | image
  | drawCtx
  deriving DecidableEq, Repr

/-- One `layer_*.draw(game_time, ...)` call. -/
structure DrawCall where
  role : LayerRole
  canvas : Canvas
  time : Nat
  deriving DecidableEq, Repr

/-- The frame composed for one `game_time` (render.py lines 62-75): the
draw calls applied, in order, to a fresh copy of `minimap_image`, and the
offset at which that foreground copy is pasted onto a fresh copy of
`minimap_bg` before the bytes are sent. -/
structure Frame where
  ops : List DrawCall
  pasteOffset : Int × Int
  deriving DecidableEq, Repr

/-- The loop body for timestamp `t` (render.py lines 62-74): copy both
templates, draw capture, ward, shot, torpedo, ship, smoke, plane, then
`minimap_bg.paste(minimap_img, (40, 40))`. -/
def composeFrame (t : Nat) : Frame :=
  { ops := [⟨LayerRole.capture, Canvas.image, t⟩,
            ⟨LayerRole.ward, Canvas.image, t⟩,
            ⟨LayerRole.shot, Canvas.drawCtx, t⟩,
            ⟨LayerRole.torpedo, Canvas.drawCtx, t⟩,
            ⟨LayerRole.ship, Canvas.image, t⟩,
            ⟨LayerRole.smoke, Canvas.image, t⟩,
            ⟨LayerRole.plane, Canvas.image, t⟩],
    pasteOffset := (40, 40) }

/-- The per-frame draw order, read off `composeFrame`. -/
def drawOrder : List LayerRole := (composeFrame 0).ops.map DrawCall.role

/-- The video sink (`write_frames` generator): the frames sent so far, in
order, and whether `close()` has been called. -/
structure Sink where
  sent : List Frame
  closed : Bool
  deriving DecidableEq, Repr

/-- The sink right after `write_frames(...)` and `send(None)`
(render.py lines 51-59): opened, nothing written. -/
def sinkInit : Sink := ⟨[], false⟩

/-- `video_writer.send(minimap_bg.tobytes())` (render.py line 75). -/
def sinkSend (s : Sink) (f : Frame) : Sink := ⟨s.sent ++ [f], s.closed⟩

/-- `video_writer.close()` (render.py line 76). -/
def sinkClose (s : Sink) : Sink := ⟨s.sent, true⟩

/-- How a run of the loop ends: normally, or with an exception escaping
while the sink was in the recorded state. -/
inductive RunOutcome where
  | ok : Sink → RunOutcome
  | raised : Sink → RunOutcome
  deriving DecidableEq, Repr

/-- The sink state carried by an outcome. -/
def outcomeSink : RunOutcome → Sink
  | RunOutcome.ok s => s
  | RunOutcome.raised s => s

/-- The per-frame loop of `Renderer.start` (render.py lines 61-76),
parametrised by a failure oracle: `fail t = true` means composing or
writing the frame for timestamp `t` raises.  On success the loop sends
the composed frame and continues; after the last timestamp,
`video_writer.close()`.  There is no `try/finally` around the loop: an
exception leaves it immediately with the sink in its current state. -/
def renderLoop (fail : Nat → Bool) : List Nat → Sink → RunOutcome
  | [], s => RunOutcome.ok (sinkClose s)
  | t :: ts, s =>
      if fail t then RunOutcome.raised s
      else renderLoop fail ts (sinkSend s (composeFrame t))

/-- `Renderer.start` from the point the sink has been opened
(render.py lines 51-76): iterate `self.replay_data.events.keys()`
(embedded as the list `events`, in the mapping's iteration order) and
stream one frame per timestamp. -/
def start (fail : Nat → Bool) (events : List Nat) : RunOutcome :=
  renderLoop fail events sinkInit

/-- What `renderLoop` does when it terminates normally: it has appended
one composed frame per timestamp, in order, and closed the sink. -/
theorem renderLoop_ok_char (fail : Nat → Bool) (events : List Nat) :
    ∀ s s2 : Sink, renderLoop fail events s = RunOutcome.ok s2 →
      s2.sent = s.sent ++ events.map composeFrame ∧ s2.closed = true := by
  induction events with
  | nil =>
      intro s s2 h
      simp only [renderLoop] at h
      injection h with h2
      subst h2
      exact ⟨by simp [sinkClose], rfl⟩
  | cons t ts ih =>
      intro s s2 h
      simp only [renderLoop] at h
      by_cases hf : fail t
      · rw [if_pos hf] at h
        exact absurd h (by simp)
      · rw [if_neg hf] at h
        have h2 := ih (sinkSend s (composeFrame t)) s2 h
        exact ⟨by rw [h2.1]; simp [sinkSend], h2.2⟩

/-- What `renderLoop` does when an exception escapes: the sink keeps its
`closed` flag (in particular `close()` has not been called on the way
out), and the frames already sent are those of the timestamps processed
before the failing one. -/
theorem renderLoop_raised_char (fail : Nat → Bool) (events : List Nat) :
    ∀ s s2 : Sink, renderLoop fail events s = RunOutcome.raised s2 →
      s2.closed = s.closed := by
  induction events with
  | nil =>
      intro s s2 h
      simp only [renderLoop] at h
      exact absurd h (by simp)
  | cons t ts ih =>
      intro s s2 h
      simp only [renderLoop] at h
      by_cases hf : fail t
      · rw [if_pos hf] at h
        injection h with h2
        rw [← h2]
      · rw [if_neg hf] at h
        exact ih (sinkSend s (composeFrame t)) s2 h

/-- C1: if the rendering run completes (`RunOutcome.ok`), the frames sent
to the video sink are exactly `events.map composeFrame`: one frame per
entry of `replay_data.events`, the `i`-th sent frame being the frame
composed for the `i`-th timestamp in iteration order — none skipped,
duplicated or reordered — and the frame count equals `len(events)`. -/
theorem frames_match_events (fail : Nat → Bool) (events : List Nat)
    (s : Sink) (h : start fail events = RunOutcome.ok s) :
    s.sent = events.map composeFrame ∧ s.sent.length = events.length := by
  have h2 := renderLoop_ok_char fail events sinkInit s h
  have hs : s.sent = events.map composeFrame := by simpa [sinkInit] using h2.1
  exact ⟨hs, by rw [hs]; simp⟩

/-- Witness for C1 at a concrete two-timestamp replay with no failure. -/
theorem frames_match_events_witness :
    (Sink.mk [composeFrame 3, composeFrame 7] true).sent
        = [3, 7].map composeFrame
    ∧ (Sink.mk [composeFrame 3, composeFrame 7] true).sent.length
        = [3, 7].length :=
  frames_match_events (fun _ => false) [3, 7]
    (Sink.mk [composeFrame 3, composeFrame 7] true) (by decide)

/-- C2: for every timestamp, the frame is composed by drawing, on a fresh
copy of the foreground image, Capture, Ward (image overlays), Shot,
Torpedo (through the `ImageDraw` context on the same canvas), Ship,
Smoke, Plane, strictly in that order, and the foreground copy is pasted
onto the fresh background copy at offset (40, 40) before the frame is
emitted. -/
theorem frame_composition_order (t : Nat) :
    (composeFrame t).ops =
      [⟨LayerRole.capture, Canvas.image, t⟩,
       ⟨LayerRole.ward, Canvas.image, t⟩,
       ⟨LayerRole.shot, Canvas.drawCtx, t⟩,
       ⟨LayerRole.torpedo, Canvas.drawCtx, t⟩,
       ⟨LayerRole.ship, Canvas.image, t⟩,
       ⟨LayerRole.smoke, Canvas.image, t⟩,
       ⟨LayerRole.plane, Canvas.image, t⟩]
    ∧ (composeFrame t).pasteOffset = (40, 40) :=
  ⟨rfl, rfl⟩

/-- C7 counterexample: the registry of `_check_versioned_layers` resolves
7 roles, not 15, and its fixed resolution order (`layers`, starting with
Ship) is not the per-frame draw order (which starts with Capture). -/
theorem registry_order_cex :
    layers.length = 7 ∧ ¬ layers.length = 15 ∧ layers ≠ drawOrder := by
  decide

/-- C7 amended: the registry resolves a concrete implementation for each
of the 7 fixed layer roles, in the fixed order Ship, Shot, Torpedo,
Smoke, Plane, Ward, Capture; this order covers exactly the drawn roles
but differs from the per-frame draw order (Capture, Ward, Shot, Torpedo,
Ship, Smoke, Plane). -/
theorem registry_order_amended (lookupV : LayerRole → Option Unit) :
    (check_versioned_layers lookupV).map LayerImpl.role = layers
    ∧ layers.length = 7
    ∧ ((∀ r ∈ layers, r ∈ drawOrder) ∧ ∀ r ∈ drawOrder, r ∈ layers)
    ∧ layers ≠ drawOrder := by
  refine ⟨?_, by decide, by decide, by decide⟩
  have hrole : ∀ r, (resolveLayer lookupV r).role = r := by
    intro r
    unfold resolveLayer
    cases lookupV r <;> rfl
  unfold check_versioned_layers
  rw [List.map_map]
  exact List.map_id'' (fun r => hrole r) layers

/-- C8: a version-resolution miss for a role (`lookupV r = none`, i.e.
`ModuleNotFoundError`/`AttributeError` on the versioned module) is caught
and silently resolved to the built-in default implementation; resolution
is total, so the registry always produces an implementation for every one
of the 7 roles and the run proceeds. -/
theorem version_miss_falls_back (lookupV : LayerRole → Option Unit)
    (r : LayerRole) (h : lookupV r = none) :
    resolveLayer lookupV r = defaultImpl r
    ∧ (check_versioned_layers lookupV).length = layers.length := by
  constructor
  · unfold resolveLayer
    rw [h]
  · unfold check_versioned_layers
    exact List.length_map ..

/-- Witness for C8: a lookup table with no versioned implementations. -/
theorem version_miss_falls_back_witness :
    resolveLayer (fun _ => none) LayerRole.ship = defaultImpl LayerRole.ship
    ∧ (check_versioned_layers (fun _ => none)).length = layers.length :=
  version_miss_falls_back (fun _ => none) LayerRole.ship rfl

/-- C9 counterexample: a run over timestamps `[0, 1]` whose frame for
timestamp 1 fails: the exception escapes with the sink holding the one
already-sent frame and `closed = false` — `close()` was never called on
this exit path. -/
theorem sink_left_open_cex :
    start (fun t => t == 1) [0, 1]
      = RunOutcome.raised (Sink.mk [composeFrame 0] false)
    ∧ (outcomeSink (start (fun t => t == 1) [0, 1])).closed = false := by
  constructor <;> decide

/-- C9 amended: the sink is closed on the successful exit path of the
rendering loop, but when composing or writing any frame fails, the
exception propagates with the sink left unclosed: there is no
`try/finally`, so the sink handle is released only when the whole loop
completes. -/
theorem sink_closed_only_on_success (fail : Nat → Bool)
    (events : List Nat) :
    (∀ s : Sink, start fail events = RunOutcome.ok s → s.closed = true)
    ∧ (∀ s : Sink, start fail events = RunOutcome.raised s →
        s.closed = false) := by
  constructor
  · intro s h
    exact (renderLoop_ok_char fail events sinkInit s h).2
  · intro s h
    rw [renderLoop_raised_char fail events sinkInit s h]
    rfl

/-- Witness for C9 amended: on a no-failure run the sink ends closed; on
a failing run it ends unclosed. -/
theorem sink_closed_only_on_success_witness :
    (Sink.mk [composeFrame 2] true).closed = true
    ∧ (Sink.mk [] false).closed = false :=
  ⟨(sink_closed_only_on_success (fun _ => false) [2]).1
      (Sink.mk [composeFrame 2] true) (by decide),
   (sink_closed_only_on_success (fun _ => true) [2]).2
      (Sink.mk [] false) (by decide)⟩

/-- C10: if the versioned manifest opens and contains `game_map` but the
entry fails the unpack or an assertion (`checkEntry` is `none`), the
resolver raises `MapManifestLoadError` directly — for every state of the
default manifest, even one holding a valid entry for the same map — and
the default manifest is never consulted (the result does not depend on
it): fallback happens only on a missing manifest file or a missing map
key, never on an invalid versioned entry. -/
theorem invalid_versioned_entry_no_fallback (vm : Manifest)
    (game_map : String) (e : List JVal)
    (h1 : vm.lookupMap game_map = some e) (h2 : checkEntry e = none) :
    ∀ dres dres2 : OpenResult,
      load_map_manifest (Except.ok vm) dres game_map = Except.error ()
      ∧ load_map_manifest (Except.ok vm) dres game_map
          = load_map_manifest (Except.ok vm) dres2 game_map := by
  intro dres dres2
  simp [load_map_manifest, h1, h2]

/-- Witness for C10: a versioned manifest whose entry for map `"A"` gives
`scale` as an integer (type invariant violated), with a default manifest
holding a valid entry for the same map. -/
theorem invalid_versioned_entry_no_fallback_witness :
    load_map_manifest
      (Except.ok [("A", [JVal.jint 760, JVal.jint 800, JVal.jint 1])])
      (Except.ok [("A", [JVal.jint 760, JVal.jint 800, JVal.jfloat 2])])
      "A" = Except.error ()
    ∧ load_map_manifest
      (Except.ok [("A", [JVal.jint 760, JVal.jint 800, JVal.jint 1])])
      (Except.ok [("A", [JVal.jint 760, JVal.jint 800, JVal.jfloat 2])])
      "A" = load_map_manifest
      (Except.ok [("A", [JVal.jint 760, JVal.jint 800, JVal.jint 1])])
      (Except.error OpenErr.fileNotFound) "A" :=
  invalid_versioned_entry_no_fallback
    [("A", [JVal.jint 760, JVal.jint 800, JVal.jint 1])] "A"
    [JVal.jint 760, JVal.jint 800, JVal.jint 1] (by decide) (by decide)
    (Except.ok [("A", [JVal.jint 760, JVal.jint 800, JVal.jfloat 2])])
    (Except.error OpenErr.fileNotFound)

/-- C3 counterexample: when the versioned package itself is missing,
`open_text` raises `ModuleNotFoundError`, which the inner `except
(FileNotFoundError, KeyError)` does not catch — so although the versioned
manifest file is missing and the default manifest resolves map `"A"` to a
valid entry, the resolver raises instead of falling back and selecting the
default package. -/
theorem versioned_fallback_cex :
    load_map_manifest (Except.error OpenErr.moduleNotFound)
      (Except.ok [("A", [JVal.jint 760, JVal.jint 800, JVal.jfloat 2])])
      "A" = Except.error ()
    ∧ fallbackDefault
        (Except.ok [("A", [JVal.jint 760, JVal.jint 800, JVal.jfloat 2])])
        "A" = Except.ok (⟨760, 800, 2⟩, Src.dflt)
    ∧ consultsDefault (Except.error OpenErr.moduleNotFound) "A" = false := by
  refine ⟨by decide, by decide, by decide⟩

/-- C3 amended: resolution first attempts the versioned manifest, and when
the map is found there with a valid entry it selects the versioned
package.  It falls back to the default manifest if and only if the
versioned manifest file is missing from an existing versioned package
(`FileNotFoundError`) or the map key is absent from the opened versioned
manifest (`KeyError`); when the versioned package itself is missing
(`ModuleNotFoundError`), it raises without consulting the default.  On
fallback, a successful default lookup selects the default package. -/
theorem versioned_fallback_amended (vres dres : OpenResult) (gm : String) :
    (consultsDefault vres gm = true ↔
       vres = Except.error OpenErr.fileNotFound
       ∨ ∃ vm, vres = Except.ok vm ∧ vm.lookupMap gm = none)
    ∧ (consultsDefault vres gm = true →
        load_map_manifest vres dres gm = fallbackDefault dres gm)
    ∧ (∀ vm e info, vres = Except.ok vm → vm.lookupMap gm = some e →
        checkEntry e = some info →
        load_map_manifest vres dres gm = Except.ok (info, Src.versioned))
    ∧ (∀ dm e info, consultsDefault vres gm = true →
        dres = Except.ok dm → dm.lookupMap gm = some e →
        checkEntry e = some info →
        load_map_manifest vres dres gm = Except.ok (info, Src.dflt))
    ∧ (vres = Except.error OpenErr.moduleNotFound →
        load_map_manifest vres dres gm = Except.error ()) := by
  cases vres with
  | error err =>
      cases err with
      | fileNotFound =>
          refine ⟨by simp [consultsDefault], fun _ => rfl, ?_, ?_, ?_⟩
          · intro vm e info hv
            exact absurd hv (by simp)
          · intro dm e info hc hd hl he
            subst hd
            simp [load_map_manifest, fallbackDefault, hl, he]
          · intro hv
            exact absurd hv (by simp)
      | moduleNotFound =>
          refine ⟨by simp [consultsDefault], ?_, ?_, ?_, fun _ => rfl⟩
          · intro hc
            exact absurd hc (by simp [consultsDefault])
          · intro vm e info hv
            exact absurd hv (by simp)
          · intro dm e info hc
            exact absurd hc (by simp [consultsDefault])
  | ok vm =>
      cases hl : vm.lookupMap gm with
      | none =>
          refine ⟨by simp [consultsDefault, hl], ?_, ?_, ?_, ?_⟩
          · intro _
            simp [load_map_manifest, hl]
          · intro vm2 e info hv he hc
            injection hv with hv2
            subst hv2
            rw [hl] at he
            exact absurd he (by simp)
          · intro dm e info hc hd hl2 he
            subst hd
            simp [load_map_manifest, fallbackDefault, hl, hl2, he]
          · intro hv
            exact absurd hv (by simp)
      | some e =>
          refine ⟨by simp [consultsDefault, hl], ?_, ?_, ?_, ?_⟩
          · intro hc
            exact absurd hc (by simp [consultsDefault, hl])
          · intro vm2 e2 info hv he hc
            injection hv with hv2
            subst hv2
            rw [hl] at he
            injection he with he2
            subst he2
            simp [load_map_manifest, hl, hc]
          · intro dm e2 info hc
            exact absurd hc (by simp [consultsDefault, hl])
          · intro hv
            exact absurd hv (by simp)

/-- Witness for C3 amended: a missing versioned manifest file with an
existing versioned package falls back and selects the default package. -/
theorem versioned_fallback_amended_witness :
    load_map_manifest (Except.error OpenErr.fileNotFound)
      (Except.ok [("B", [JVal.jint 760, JVal.jint 720, JVal.jfloat 2])])
      "B" = Except.ok (⟨760, 720, 2⟩, Src.dflt) :=
  (versioned_fallback_amended (Except.error OpenErr.fileNotFound)
      (Except.ok [("B", [JVal.jint 760, JVal.jint 720, JVal.jfloat 2])])
      "B").2.2.2.1
    [("B", [JVal.jint 760, JVal.jint 720, JVal.jfloat 2])]
    [JVal.jint 760, JVal.jint 720, JVal.jfloat 2] ⟨760, 720, 2⟩
    (by decide) rfl (by decide) (by decide)

/-- When the default-manifest handler raises: the default manifest cannot
be opened, the map key is absent from it, or its entry fails the checks. -/
theorem fallbackDefault_error_iff (dres : OpenResult) (gm : String) :
    fallbackDefault dres gm = Except.error () ↔
      (∃ err, dres = Except.error err)
      ∨ (∃ dm, dres = Except.ok dm ∧ dm.lookupMap gm = none)
      ∨ (∃ dm e, dres = Except.ok dm ∧ dm.lookupMap gm = some e
           ∧ checkEntry e = none) := by
  cases dres with
  | error err => simp [fallbackDefault]
  | ok dm =>
      cases h : dm.lookupMap gm with
      | none => simp [fallbackDefault, h]
      | some e =>
          cases hc : checkEntry e with
          | none => simp [fallbackDefault, h, hc]
          | some info => simp [fallbackDefault, h, hc]

/-- C4 counterexample: `_load_map_manifest` raises on an input where none
of the claim's listed conditions holds — map `"C"` is present in the
default manifest with a valid entry (so not absent from both manifests),
the default manifest loads fine, and no entry was even checked: the raise
is caused by the versioned package being missing (`ModuleNotFoundError`),
a case outside the claim's "if and only if". -/
theorem manifest_error_iff_cex :
    load_map_manifest (Except.error OpenErr.moduleNotFound)
      (Except.ok [("C", [JVal.jint 760, JVal.jint 640, JVal.jfloat 3])])
      "C" = Except.error ()
    ∧ Manifest.lookupMap
        [("C", [JVal.jint 760, JVal.jint 640, JVal.jfloat 3])] "C"
        = some [JVal.jint 760, JVal.jint 640, JVal.jfloat 3]
    ∧ checkEntry [JVal.jint 760, JVal.jint 640, JVal.jfloat 3]
        = some ⟨760, 640, 3⟩ := by
  refine ⟨by decide, by decide, by decide⟩

/-- C4 amended: `_load_map_manifest` raises `MapManifestLoadError` if and
only if the versioned package is missing (`ModuleNotFoundError` at the
versioned step), or the versioned manifest holds an entry for the map
that violates the unpack/type/range invariants, or control reaches the
default fallback step and there the manifest cannot be loaded, the map
key is absent, or the entry violates an invariant.  On success, the
session's `minimap_size`, `space_size` and `scaling` are exactly the
fields of the succeeding manifest entry, and a checked entry always has
`minimap_size = 760`, an integer `space_size` with
`0 < space_size ≤ 1600`, and a float `scale`. -/
theorem manifest_error_iff (vres dres : OpenResult) (gm : String) :
    (load_map_manifest vres dres gm = Except.error () ↔
       vres = Except.error OpenErr.moduleNotFound
       ∨ (∃ vm e, vres = Except.ok vm ∧ vm.lookupMap gm = some e
            ∧ checkEntry e = none)
       ∨ (consultsDefault vres gm = true ∧
            ((∃ err, dres = Except.error err)
             ∨ (∃ dm, dres = Except.ok dm ∧ dm.lookupMap gm = none)
             ∨ (∃ dm e, dres = Except.ok dm ∧ dm.lookupMap gm = some e
                  ∧ checkEntry e = none))))
    ∧ (∀ info src, load_map_manifest vres dres gm = Except.ok (info, src) →
         ∃ m e, (src = Src.versioned ∧ vres = Except.ok m
                 ∨ src = Src.dflt ∧ dres = Except.ok m)
           ∧ m.lookupMap gm = some e ∧ checkEntry e = some info)
    ∧ (∀ e info, checkEntry e = some info →
         info.minimap_size = 760 ∧ 0 < info.space_size
         ∧ info.space_size ≤ 1600
         ∧ e = [JVal.jint info.minimap_size, JVal.jint info.space_size,
                JVal.jfloat info.scaling]) := by
  refine ⟨?_, ?_, ?_⟩
  · cases vres with
    | error err =>
        cases err with
        | fileNotFound =>
            simp only [load_map_manifest, consultsDefault]
            rw [fallbackDefault_error_iff]
            simp
        | moduleNotFound => simp [load_map_manifest]
    | ok vm =>
        cases hl : vm.lookupMap gm with
        | none =>
            simp only [load_map_manifest, consultsDefault, hl]
            rw [fallbackDefault_error_iff]
            simp [hl]
        | some e =>
            cases hc : checkEntry e with
            | none => simp [load_map_manifest, consultsDefault, hl, hc]
            | some info => simp [load_map_manifest, consultsDefault, hl, hc]
  · intro info src h
    cases vres with
    | error err =>
        cases err with
        | fileNotFound =>
            cases dres with
            | error err2 => exact absurd h (by simp [load_map_manifest, fallbackDefault])
            | ok dm =>
                cases hl : dm.lookupMap gm with
                | none => exact absurd h (by simp [load_map_manifest, fallbackDefault, hl])
                | some e =>
                    cases hc : checkEntry e with
                    | none => exact absurd h (by simp [load_map_manifest, fallbackDefault, hl, hc])
                    | some info2 =>
                        simp only [load_map_manifest, fallbackDefault, hl, hc] at h
                        injection h with h2
                        injection h2 with h3 h4
                        subst h3
                        subst h4
                        exact ⟨dm, e, Or.inr ⟨rfl, rfl⟩, hl, hc⟩
        | moduleNotFound => exact absurd h (by simp [load_map_manifest])
    | ok vm =>
        cases hl : vm.lookupMap gm with
        | none =>
            cases dres with
            | error err2 => exact absurd h (by simp [load_map_manifest, fallbackDefault, hl])
            | ok dm =>
                cases hl2 : dm.lookupMap gm with
                | none => exact absurd h (by simp [load_map_manifest, fallbackDefault, hl, hl2])
                | some e =>
                    cases hc : checkEntry e with
                    | none => exact absurd h (by simp [load_map_manifest, fallbackDefault, hl, hl2, hc])
                    | some info2 =>
                        simp only [load_map_manifest, fallbackDefault, hl, hl2, hc] at h
                        injection h with h2
                        injection h2 with h3 h4
                        subst h3
                        subst h4
                        exact ⟨dm, e, Or.inr ⟨rfl, rfl⟩, hl2, hc⟩
        | some e =>
            cases hc : checkEntry e with
            | none => exact absurd h (by simp [load_map_manifest, hl, hc])
            | some info2 =>
                simp only [load_map_manifest, hl, hc] at h
                injection h with h2
                injection h2 with h3 h4
                subst h3
                subst h4
                exact ⟨vm, e, Or.inl ⟨rfl, rfl⟩, hl, hc⟩
  · intro e info h
    unfold checkEntry at h
    split at h
    · split at h
      · next ms ss sc _ hcond =>
          injection h with h2
          subst h2
          exact ⟨hcond.2.2, hcond.1, hcond.2.1, rfl⟩
      · exact absurd h (by simp)
    · exact absurd h (by simp)

/-- Witness for C4 amended: a valid versioned entry loads successfully and
the session fields come from that entry. -/
theorem manifest_error_iff_witness :
    ∃ m e, (Src.versioned = Src.versioned
            ∧ (Except.ok [("D", [JVal.jint 760, JVal.jint 600, JVal.jfloat 5])]
                 : OpenResult) = Except.ok m
            ∨ Src.versioned = Src.dflt
            ∧ (Except.error OpenErr.fileNotFound : OpenResult) = Except.ok m)
      ∧ m.lookupMap "D" = some e ∧ checkEntry e = some ⟨760, 600, 5⟩ :=
  (manifest_error_iff
      (Except.ok [("D", [JVal.jint 760, JVal.jint 600, JVal.jfloat 5])])
      (Except.error OpenErr.fileNotFound) "D").2.1
    ⟨760, 600, 5⟩ Src.versioned (by decide)

/-- `pyRound` of an integer is that integer. -/
theorem pyRound_intCast (n : Int) : pyRound ((n : ℤ) : ℚ) = n := by
  unfold pyRound
  rw [Int.fract_intCast, Int.floor_intCast, if_pos (by norm_num : (0:ℚ) < 1/2)]

/-- `pyRound` unfolded at a known floor. -/
theorem pyRound_char (q : ℚ) (n : Int) (hfl : ⌊q⌋ = n) :
    pyRound q = if Int.fract q < 1/2 then n
      else if 1/2 < Int.fract q then n + 1
      else if n % 2 = 0 then n else n + 1 := by
  unfold pyRound
  rw [hfl]

/-- Round-half-to-even is symmetric about any integer `c`: the roundings
of `c + u` and `c - u` always sum to `2 * c` (at the tie, the two floors
have opposite parity, so the even-rounding corrections cancel). -/
theorem pyRound_add_neg (c : Int) (u : ℚ) :
    pyRound ((c : ℚ) + u) + pyRound ((c : ℚ) - u) = 2 * c := by
  by_cases h0 : Int.fract u = 0
  · have hu : ((⌊u⌋ : ℤ) : ℚ) = u := by
      have h2 := Int.floor_add_fract u
      rw [h0, add_zero] at h2
      exact h2
    rw [← hu, ← Int.cast_add, ← Int.cast_sub, pyRound_intCast, pyRound_intCast]
    ring
  · have hr0 : 0 ≤ Int.fract u := Int.fract_nonneg u
    have hr1 : Int.fract u < 1 := Int.fract_lt_one u
    have hfl1 : ⌊(c : ℚ) + u⌋ = c + ⌊u⌋ := Int.floor_int_add c u
    have hfr1 : Int.fract ((c : ℚ) + u) = Int.fract u := Int.fract_int_add c u
    have hfrm : Int.fract ((c : ℚ) - u) = 1 - Int.fract u := by
      rw [sub_eq_add_neg, Int.fract_int_add]
      exact Int.fract_neg h0
    have hflm : ⌊(c : ℚ) - u⌋ = c - ⌊u⌋ - 1 := by
      have h4 := Int.floor_add_fract ((c : ℚ) - u)
      have h5 := Int.floor_add_fract u
      rw [hfrm] at h4
      have h6 : ((⌊(c : ℚ) - u⌋ : ℤ) : ℚ) = ((c - ⌊u⌋ - 1 : ℤ) : ℚ) := by
        push_cast at h4 h5 ⊢
        linarith
      exact_mod_cast h6
    rw [pyRound_char _ _ hfl1, pyRound_char _ _ hflm, hfr1, hfrm]
    rcases lt_trichotomy (Int.fract u) (1/2) with hlt | heq | hgt
    · rw [if_pos hlt, if_neg (by linarith : ¬ (1 - Int.fract u < 1/2)),
          if_pos (by linarith : (1:ℚ)/2 < 1 - Int.fract u)]
      ring
    · rw [if_neg (by rw [heq]; norm_num : ¬ (Int.fract u < 1/2)),
          if_neg (by rw [heq]; norm_num : ¬ ((1:ℚ)/2 < Int.fract u)),
          if_neg (by rw [heq]; norm_num : ¬ (1 - Int.fract u < 1/2)),
          if_neg (by rw [heq]; norm_num : ¬ ((1:ℚ)/2 < 1 - Int.fract u))]
      by_cases hp : (c + ⌊u⌋) % 2 = 0
      · rw [if_pos hp, if_neg (by omega : ¬ ((c - ⌊u⌋ - 1) % 2 = 0))]
        omega
      · rw [if_neg hp, if_pos (by omega : (c - ⌊u⌋ - 1) % 2 = 0)]
        omega
    · rw [if_neg (by linarith : ¬ (Int.fract u < 1/2)), if_pos hgt,
          if_pos (by linarith : 1 - Int.fract u < 1/2)]
      ring

/-- Unfolding `get_scaled` with `flip_y` set. -/
theorem get_scaled_eq (st : MapInfo) (xy : ℚ × ℚ) :
    get_scaled st xy true
      = (pyRound (xy.1 * st.scaling + (st.minimap_size : ℚ) / 2),
         pyRound (-xy.2 * st.scaling + (st.minimap_size : ℚ) / 2)) := rfl

/-- C5: `get_scaled` computes each axis as `round(world * scale +
minimap_size / 2)` — with Python banker's rounding — negating `y` before
scaling when `flip_y` is set; consequently, under the `minimap_size = 760`
invariant, `get_scaled((0,0), flip_y=True) = (380, 380)` for every
scale. -/
theorem to_pixels_formula (st : MapInfo) (xy : ℚ × ℚ)
    (h : st.minimap_size = 760) :
    get_scaled st xy true
      = (pyRound (xy.1 * st.scaling + (st.minimap_size : ℚ) / 2),
         pyRound (-xy.2 * st.scaling + (st.minimap_size : ℚ) / 2))
    ∧ get_scaled st (0, 0) true = (380, 380) := by
  refine ⟨rfl, ?_⟩
  have hz : get_scaled st (0, 0) true
      = (pyRound ((st.minimap_size : ℚ) / 2),
         pyRound ((st.minimap_size : ℚ) / 2)) := by
    rw [get_scaled_eq]
    norm_num
  have h380 : (st.minimap_size : ℚ) / 2 = ((380 : ℤ) : ℚ) := by
    rw [h]
    norm_num
  rw [hz, h380, pyRound_intCast]

/-- Witness for C5 at the session state `(760, 800, 2.0)` and world
coordinate `(3, 5)`. -/
theorem to_pixels_formula_witness :
    (MapInfo.mk 760 800 2).minimap_size = 760
    ∧ (get_scaled (MapInfo.mk 760 800 2) ((3 : ℚ), (5 : ℚ)) true
        = (pyRound (((3 : ℚ), (5 : ℚ)).1 * (MapInfo.mk 760 800 2).scaling
             + ((MapInfo.mk 760 800 2).minimap_size : ℚ) / 2),
           pyRound (-((3 : ℚ), (5 : ℚ)).2 * (MapInfo.mk 760 800 2).scaling
             + ((MapInfo.mk 760 800 2).minimap_size : ℚ) / 2))
       ∧ get_scaled (MapInfo.mk 760 800 2) (0, 0) true = (380, 380)) :=
  ⟨rfl, to_pixels_formula (MapInfo.mk 760 800 2) ((3 : ℚ), (5 : ℚ)) rfl⟩

/-- C6: with `flip_y` set, `get_scaled (x, y)` and `get_scaled (x, -y)`
have equal x components, and their y components are mirror images around
`minimap_size / 2`: they sum to `minimap_size`, for every scale, under
the `minimap_size = 760` invariant. -/
theorem to_pixels_mirror (st : MapInfo) (x y : ℚ)
    (h : st.minimap_size = 760) :
    (get_scaled st (x, y) true).1 = (get_scaled st (x, -y) true).1
    ∧ (get_scaled st (x, y) true).2 + (get_scaled st (x, -y) true).2
        = st.minimap_size := by
  refine ⟨rfl, ?_⟩
  have h380 : (st.minimap_size : ℚ) / 2 = ((380 : ℤ) : ℚ) := by
    rw [h]
    norm_num
  have hy : (get_scaled st (x, y) true).2
      = pyRound (((380 : ℤ) : ℚ) - y * st.scaling) := by
    rw [get_scaled_eq, ← h380]
    ring_nf
  have hy2 : (get_scaled st (x, -y) true).2
      = pyRound (((380 : ℤ) : ℚ) + y * st.scaling) := by
    rw [get_scaled_eq, ← h380]
    ring_nf
  rw [hy, hy2, h]
  have h2 := pyRound_add_neg 380 (y * st.scaling)
  linarith

/-- Witness for C6 at the session state `(760, 800, 2.0)` and world
coordinates `(3, 5)` and `(3, -5)`. -/
theorem to_pixels_mirror_witness :
    (MapInfo.mk 760 800 2).minimap_size = 760
    ∧ ((get_scaled (MapInfo.mk 760 800 2) ((3 : ℚ), (5 : ℚ)) true).1
         = (get_scaled (MapInfo.mk 760 800 2) ((3 : ℚ), -(5 : ℚ)) true).1
       ∧ (get_scaled (MapInfo.mk 760 800 2) ((3 : ℚ), (5 : ℚ)) true).2
           + (get_scaled (MapInfo.mk 760 800 2) ((3 : ℚ), -(5 : ℚ)) true).2
           = (MapInfo.mk 760 800 2).minimap_size) :=
  ⟨rfl, to_pixels_mirror (MapInfo.mk 760 800 2) 3 5 rfl⟩
